import Mathlib

/-!
# Verification of the RAG recipe-recommendation pipeline

Shallow embedding of `backend/app/services/rag_pipeline.py`,
`backend/app/services/reranker_service.py` and
`backend/app/services/llm_service.py` (data model from
`backend/app/models/recipe.py`), together with proofs of the
specification's claims about them.

External collaborators (the FAISS index, the embedding model, the
cross-encoder, the Gemini API, and the corpus/recipe service) are modelled
as oracles: each call a stage makes to them during one request is a field
of an environment record holding that call's outcome, either a normal
return value (`Except.ok`) or a raised exception (`Except.error`).
Quantifying over the environment quantifies over every behaviour of the
subsystems.
-/

/-- A raised Python exception. Which exception class was raised is
irrelevant to the code under study (every handler is `except Exception`),
so a single constructor suffices. -/
inductive PyExc where
  | exc
deriving DecidableEq, Repr

/-- Python truthiness of an optional string (`None` and `""` are falsy). -/
def pyTruthyOpt : Option String → Bool
  | none => false
  | some s => s ≠ ""

/-- Python string indexing `l[i]` with negative-index wrap-around:
`l[i]` for `0 ≤ i < len l` is element `i`, for `-len l ≤ i < 0` it is
element `len l + i`, and anything else raises `IndexError` (here `none`). -/
def pyIndex {α : Type} (l : List α) (i : Int) : Option α :=
  if 0 ≤ i then l.get? i.toNat
  else
    let j : Int := (l.length : Int) + i
    if 0 ≤ j then l.get? j.toNat else none

/-- Python `str.lower()`, modelled with `Char.toLower` applied to each
character (written over the character list so that it evaluates by
kernel reduction). -/
def pyLower (s : String) : String := String.mk (s.data.map Char.toLower)

/-- Python `needle in haystack` for strings: substring containment. -/
def pyContains (haystack needle : String) : Bool :=
  decide (needle.toList <:+: haystack.toList)

/-- Python `str.split()` with no argument: split on whitespace runs,
discarding empty pieces. -/
def pySplitWs (s : String) : List String :=
  (s.split fun c => c.isWhitespace).filter (fun w => w ≠ "")

/-- Python `a or b` on strings: `a` if truthy (non-empty), else `b`. -/
def pyOrStr (a b : String) : String := if a ≠ "" then a else b

/-! ## Data model (`app/models/recipe.py`) -/

/-- `Recipe` (pydantic model). `Instructions` is `Optional[str] = ""`. -/
structure Recipe where
  Title : String
  Ingredients : String
  Instructions : Option String
  Image_Name : String
  Cleaned_Ingredients : String
deriving DecidableEq, Repr

/-- `RecipeWithMatch(Recipe)` with the two match-annotation fields. -/
structure RecipeWithMatch extends Recipe where
  matchingCount : Nat
  matchingIngredients : List String
deriving DecidableEq, Repr

/-- `Recipe(**recipe.dict())` applied to a `RecipeWithMatch`: pydantic
ignores the extra keys, leaving the base `Recipe` fields. -/
def RecipeWithMatch.toRecipeBase (r : RecipeWithMatch) : Recipe := r.toRecipe

/-! ## Reranker service (`app/services/reranker_service.py`) -/

/-- The mutable fields of a `RerankerService` instance.  `model_name` and
`batch_size` come from settings at construction and are never written
afterwards; `enabled`, `model_loaded` and `model_set` (whether
`self.model` is not `None`) change over the service's lifetime. -/
structure RerankerState where
  model_name : String
  batch_size : Nat
  enabled : Bool
  model_loaded : Bool
  model_set : Bool
deriving DecidableEq, Repr

/-- `RerankerService.__init__` with `RERANKER_ENABLED = True`
(the config default). -/
def RerankerService.initial (name : String) (batch : Nat) : RerankerState :=
  { model_name := name, batch_size := batch,
    enabled := true, model_loaded := false, model_set := false }

/-- Outcomes of the external calls one `rerank` invocation can make:
constructing the `CrossEncoder` (in `_load_model`) and `model.predict`
(the raw, unbounded cross-encoder scores, one per pair). -/
structure RerankOracles where
  loadOutcome : Except PyExc Unit
  predictOutcome : Except PyExc (List ℝ)

/-- `RerankerService._load_model`: lazy load guarded by `enabled` and
`_model_loaded`; on failure it records `enabled = False`,
`_model_loaded = False` and re-raises. Returns the mutated state together
with the normal/exceptional outcome. -/
def RerankerService.load_model (st : RerankerState) (load : Except PyExc Unit) :
    RerankerState × Except PyExc Unit :=
  if !st.model_loaded && st.enabled then
    match load with
    | .ok _ => ({ st with model_loaded := true, model_set := true }, .ok ())
    | .error e =>
        ({ st with enabled := false, model_loaded := false }, .error e)
  else (st, .ok ())

/-- Strip the characters `'['`, `']'` and the single quote (`chr 39`)
from a string: the effect of the three single-character
`str.replace(c, "")` calls in `_prepare_recipe_text`. -/
def stripListSyntax (s : String) : String :=
  String.mk (s.toList.filter fun c =>
    !(c == '[' || c == ']' || c == Char.ofNat 39))

/-- The ≤300-word instructions excerpt of `_prepare_recipe_text`:
if the text has more than 300 whitespace-separated words, keep the first
300 joined by single spaces and append `"..."`; otherwise keep the text. -/
def truncate300 (instructions : String) : String :=
  let words := pySplitWs instructions
  if words.length > 300 then String.intercalate " " (words.take 300) ++ "..."
  else instructions

/-- `RerankerService._prepare_recipe_text`. -/
def RerankerService.prepare_recipe_text (r : Recipe) : String :=
  let parts₁ : List String := if r.Title ≠ "" then [r.Title] else []
  let ingredients_text := pyOrStr r.Cleaned_Ingredients r.Ingredients
  let parts₂ := parts₁ ++
    (if ingredients_text ≠ "" then
      ["Ingredients: " ++ stripListSyntax ingredients_text] else [])
  let parts₃ := parts₂ ++
    (if pyTruthyOpt r.Instructions then
      ["Instructions: " ++ truncate300 (r.Instructions.getD "")] else [])
  String.intercalate " " parts₃

/-- `RerankerService._prepare_query_text`. -/
def RerankerService.prepare_query_text (ingredients : List String) : String :=
  if ingredients.isEmpty then ""
  else if ingredients.length = 1 then
    "Recipe with " ++ (ingredients.headD "")
  else if ingredients.length ≤ 3 then
    "Recipe with " ++ String.intercalate ", " (ingredients.dropLast)
      ++ " and " ++ (ingredients.getLastD "")
  else
    "Recipe with ingredients: " ++ String.intercalate ", " (ingredients.take 5)
      ++ " and more"

/-- `RerankerService.is_loaded`. -/
def RerankerService.is_loaded (st : RerankerState) : Bool :=
  st.model_loaded && st.model_set && st.enabled

/-- The logistic normalization `1 / (1 + exp(-score))` applied to each raw
cross-encoder score. -/
noncomputable def sigmoid (x : ℝ) : ℝ := 1 / (1 + Real.exp (-x))

/-- The sort key of `recipe_scores.sort(key=lambda x: x[1], reverse=True)`:
keep `a` before `b` when `b`'s score is ≤ `a`'s (stable descending sort). -/
noncomputable def scoreDescB (a b : Recipe × ℝ) : Bool := decide (b.2 ≤ a.2)

/-- The fallback value used on every degraded path of `rerank`:
the candidates in input order truncated to `top_k`, each paired with the
dummy score `1.0`. -/
def rerankFallback (recipes : List Recipe) (top_k : Nat) : List (Recipe × ℝ) :=
  (recipes.take top_k).map fun r => (r, 1)

/-- `RerankerService.rerank`.  Returns the mutated service state and the
result list.  The function never raises: every external call is inside a
`try`/`except` whose handler returns the fallback.  The guard on
`normalized` being empty models the eager `min(normalized_scores)` /
`max(normalized_scores)` in the debug log line, which raises on an empty
score array and is caught by the same handler. -/
noncomputable def RerankerService.rerank (st : RerankerState) (ora : RerankOracles)
    (query : String) (recipes : List Recipe) (top_k : Nat) :
    RerankerState × List (Recipe × ℝ) :=
  if !st.enabled then (st, rerankFallback recipes top_k)
  else if recipes.isEmpty then (st, [])
  else
    let (st₁, loadRes) :=
      if !st.model_loaded then RerankerService.load_model st ora.loadOutcome
      else (st, .ok ())
    match loadRes with
    | .error _ => (st₁, rerankFallback recipes top_k)
    | .ok _ =>
      match ora.predictOutcome with
      | .error _ => (st₁, rerankFallback recipes top_k)
      | .ok raw_scores =>
        let normalized := raw_scores.map sigmoid
        if normalized.isEmpty then (st₁, rerankFallback recipes top_k)
        else
          let recipe_scores := recipes.zip normalized
          let sorted := recipe_scores.mergeSort scoreDescB
          (st₁, sorted.take top_k)

/-- `RerankerService.rerank_by_ingredients`. -/
noncomputable def RerankerService.rerank_by_ingredients (st : RerankerState)
    (ora : RerankOracles) (ingredients : List String) (recipes : List Recipe)
    (top_k : Nat) : RerankerState × List (Recipe × ℝ) :=
  RerankerService.rerank st ora
    (RerankerService.prepare_query_text ingredients) recipes top_k

/-- The dictionary returned by `RerankerService.get_model_info`. -/
structure ModelInfo where
  model_name : String
  loaded : Bool
  enabled : Bool
  batch_size : Nat
deriving DecidableEq, Repr

/-- `RerankerService.get_model_info`. -/
def RerankerService.get_model_info (st : RerankerState) : ModelInfo :=
  { model_name := st.model_name, loaded := st.model_loaded,
    enabled := st.enabled, batch_size := st.batch_size }

/-! ## LLM service (`app/services/llm_service.py`) -/

/-- `DietaryPreferences` (five independent boolean flags). -/
structure DietaryPreferences where
  vegan : Bool
  vegetarian : Bool
  glutenFree : Bool
  dairyFree : Bool
  nutAllergy : Bool
deriving DecidableEq, Repr

/-- The mutable fields of an `LLMService` instance.  `api_key` is
`settings.GEMINI_API_KEY` (`Optional[str]`), `enabled` starts as
`settings.GEMINI_ENABLED`; `model_set` records whether `self.model` is
not `None`. -/
structure LLMState where
  api_key : Option String
  enabled : Bool
  model_loaded : Bool
  model_set : Bool
deriving DecidableEq, Repr

/-- Outcomes of the external calls one `generate_explanation` invocation
can make: `genai.configure` + `GenerativeModel` construction (in
`_load_model`), and `model.generate_content(...)`, whose normal outcome is
the response text. -/
structure LLMOracles where
  loadOutcome : Except PyExc Unit
  genOutcome : Except PyExc String

/-- `LLMService._load_model`: guarded lazy initialization.  On an absent
credential it disables the service and returns; on a load failure it
records `enabled = False`, `_model_loaded = False` and re-raises. -/
def LLMService.load_model (st : LLMState) (load : Except PyExc Unit) :
    LLMState × Except PyExc Unit :=
  if !st.enabled then (st, .ok ())
  else if !pyTruthyOpt st.api_key then ({ st with enabled := false }, .ok ())
  else if !st.model_loaded then
    match load with
    | .ok _ => ({ st with model_loaded := true, model_set := true }, .ok ())
    | .error e =>
        ({ st with enabled := false, model_loaded := false }, .error e)
  else (st, .ok ())

/-- `LLMService.is_available`. -/
def LLMService.is_available (st : LLMState) : Bool :=
  st.enabled && st.model_loaded && st.model_set

/-- `LLMService.generate_explanation`.  Returns the mutated state and the
optional explanation.  Prompt construction (`_build_prompt`) is a pure
total string computation whose value only feeds the external
`generate_content` call, which the `genOutcome` oracle abstracts; the
oracle's `.ok` value stands for `response.text`.  Every path after the
three leading guards sits inside `try`/`except Exception`, whose handler
returns `None`, so the function as a whole never raises — its result type
records the explanation only. -/
def LLMService.generate_explanation (st : LLMState) (ora : LLMOracles)
    (recommended_recipes : List Recipe) : LLMState × Option String :=
  if recommended_recipes.isEmpty then (st, none)
  else if !st.enabled then (st, none)
  else if !pyTruthyOpt st.api_key then (st, none)
  else
    let (st₁, loadRes) :=
      if !st.model_loaded then LLMService.load_model st ora.loadOutcome
      else (st, .ok ())
    match loadRes with
    | .error _ => (st₁, none)
    | .ok _ =>
      if !LLMService.is_available st₁ then (st₁, none)
      else
        match ora.genOutcome with
        | .error _ => (st₁, none)
        | .ok text => (st₁, some text.trim)

/-! ## RAG pipeline (`app/services/rag_pipeline.py`)

`RAGPipeline.process` talks to five collaborators (faiss_service,
embedding_service, reranker_service, llm_service, recipe_service).  The
environment below holds the outcome of each call one request can make, in
program order.  `search_by_ingredients` and `get_all_recipes` receive an
argument computed by the pipeline, so their oracles are functions of it;
the distances that `search_by_ingredients` also returns are unused by the
code and omitted. -/

structure PipelineEnv where
  /-- `self.retriever.is_loaded()` at the top of `_retrieve`. -/
  retrIsLoaded : Except PyExc Bool
  /-- `recipe_service.find_suitable_recipes(...)` on the index-not-loaded
  branch inside the `try` of `_retrieve`. -/
  findSuitableA : Except PyExc (List RecipeWithMatch)
  /-- First `recipe_service.get_total_count()` (the `k` argument). -/
  getTotalCount₁ : Except PyExc Nat
  /-- `self.retriever.search_by_ingredients(..., k, ...)`: the returned
  neighbour identifiers, as a function of `k`. -/
  search : Nat → Except PyExc (List Int)
  /-- Second `recipe_service.get_total_count()` (the `limit` argument). -/
  getTotalCount₂ : Except PyExc Nat
  /-- `recipe_service.get_all_recipes(limit)` as a function of `limit`. -/
  getAllRecipes : Nat → Except PyExc (List Recipe)
  /-- `recipe_service.find_suitable_recipes(...)` in the `except` handler
  of `_retrieve`. -/
  findSuitableB : Except PyExc (List RecipeWithMatch)
  /-- `self.reranker.rerank_by_ingredients(...)` in `_rerank`. -/
  rerankCall : Except PyExc (List (Recipe × ℝ))
  /-- `self.generator.generate_explanation(...)` in `_generate`. -/
  generateCall : Except PyExc (Option String)
  /-- `self.retriever.is_loaded()` in the metadata dictionary. -/
  metaRetrIsLoaded : Except PyExc Bool
  /-- `self.reranker.is_loaded()` in the metadata dictionary. -/
  metaRerankerIsLoaded : Except PyExc Bool
  /-- `self.generator.is_available()` in the metadata dictionary. -/
  metaLlmAvailable : Except PyExc Bool

/-- The resolution loop of `_retrieve`:
`for idx in indices: if idx < len(all_recipes): append(all_recipes[idx])`.
The guard is a signed comparison, so negative identifiers pass it and are
resolved by Python indexing; an identifier below `-len(all_recipes)`
raises `IndexError`, aborting the whole loop. -/
def resolveIndices (all_recipes : List Recipe) :
    List Int → Except PyExc (List Recipe)
  | [] => .ok []
  | idx :: rest =>
    if idx < (all_recipes.length : Int) then
      match pyIndex all_recipes idx with
      | some r =>
        match resolveIndices all_recipes rest with
        | .ok rs => .ok (r :: rs)
        | .error e => .error e
      | none => .error .exc
    else resolveIndices all_recipes rest

/-- The body of the `try` block of `RAGPipeline._retrieve`. -/
def retrieveTryBody (env : PipelineEnv) (top_k : Nat) :
    Except PyExc (List Recipe) :=
  match env.retrIsLoaded with
  | .error e => .error e
  | .ok loaded =>
    if !loaded then
      match env.findSuitableA with
      | .error e => .error e
      | .ok results => .ok (results.map RecipeWithMatch.toRecipeBase)
    else
      match env.getTotalCount₁ with
      | .error e => .error e
      | .ok total₁ =>
        match env.search (min top_k total₁) with
        | .error e => .error e
        | .ok indices =>
          match env.getTotalCount₂ with
          | .error e => .error e
          | .ok total₂ =>
            match env.getAllRecipes total₂ with
            | .error e => .error e
            | .ok all_recipes => resolveIndices all_recipes indices

/-- `RAGPipeline._retrieve`: the `try` body, with the `except` handler
falling back to string matching via `find_suitable_recipes`.  The handler
itself can raise (that call is outside any further `try`). -/
def RAGPipeline.retrieve (env : PipelineEnv) (top_k : Nat) :
    Except PyExc (List Recipe) :=
  match retrieveTryBody env top_k with
  | .ok r => .ok r
  | .error _ =>
    match env.findSuitableB with
    | .error e => .error e
    | .ok results => .ok (results.map RecipeWithMatch.toRecipeBase)

/-- `RAGPipeline._rerank`: total — the `except` handler substitutes the
original order truncated to `top_k` with dummy `1.0` scores. -/
def RAGPipeline.rerankStage (env : PipelineEnv) (recipes : List Recipe)
    (top_k : Nat) : List (Recipe × ℝ) :=
  if recipes.isEmpty then []
  else
    match env.rerankCall with
    | .ok results => results
    | .error _ => (recipes.take top_k).map fun r => (r, 1)

/-- `RAGPipeline._generate`: total — `None` on empty input and on any
exception. -/
def RAGPipeline.generateStage (env : PipelineEnv)
    (reranked_recipes : List (Recipe × ℝ)) : Option String :=
  if reranked_recipes.isEmpty then none
  else
    match env.generateCall with
    | .ok explanation => explanation
    | .error _ => none

/-- The match-annotation loop of `RAGPipeline.process`: the user
ingredients whose lowercased text occurs in the lowercased
`recipe.Ingredients`. -/
def matchingIngredientsOf (user_ingredients : List String) (r : Recipe) :
    List String :=
  user_ingredients.filter fun ing =>
    pyContains (pyLower r.Ingredients) (pyLower ing)

/-- Construction of one `RecipeWithMatch` in `RAGPipeline.process`. -/
def annotateRecipe (user_ingredients : List String) (r : Recipe) :
    RecipeWithMatch :=
  { toRecipe := r,
    matchingCount := (matchingIngredientsOf user_ingredients r).length,
    matchingIngredients := matchingIngredientsOf user_ingredients r }

/-- The `metadata` dictionary of a `PipelineResult`.  The three
availability flags are `Option Bool` because the zero-candidate
short-circuit builds a dictionary without those keys (`none` = key
absent). -/
structure PipelineMetadata where
  retrieval_count : Nat
  reranked_count : Nat
  pipeline_stages : List String
  retriever_used : Option Bool
  reranker_used : Option Bool
  llm_used : Option Bool
deriving DecidableEq, Repr

/-- The dictionary returned by `RAGPipeline.process`. -/
structure PipelineResult where
  recipes : List RecipeWithMatch
  explanation : Option String
  metadata : PipelineMetadata
deriving DecidableEq, Repr

/-- The zero-candidate short-circuit value of `RAGPipeline.process`. -/
def shortCircuitResult : PipelineResult :=
  { recipes := [], explanation := none,
    metadata := { retrieval_count := 0, reranked_count := 0,
                  pipeline_stages := ["retrieval"],
                  retriever_used := none, reranker_used := none,
                  llm_used := none } }

/-- `RAGPipeline.process`.  `user_preferences` and `excluded_ingredients`
are forwarded only to the generator, whose behaviour the `generateCall`
oracle already fixes for this request, so they do not influence the
control flow. -/
def RAGPipeline.process (env : PipelineEnv) (user_ingredients : List String)
    (_user_preferences : Option DietaryPreferences)
    (_excluded_ingredients : Option (List String))
    (top_k : Nat) (explain : Bool) (retrieval_top_k : Nat) :
    Except PyExc PipelineResult :=
  match RAGPipeline.retrieve env retrieval_top_k with
  | .error e => .error e
  | .ok retrieved_recipes =>
    if retrieved_recipes.isEmpty then .ok shortCircuitResult
    else
      let reranked_results := RAGPipeline.rerankStage env retrieved_recipes top_k
      let final_recipes := reranked_results.map fun rs =>
        annotateRecipe user_ingredients rs.1
      let explanation :=
        if explain then RAGPipeline.generateStage env reranked_results else none
      match env.metaRetrIsLoaded with
      | .error e => .error e
      | .ok retrFlag =>
        match env.metaRerankerIsLoaded with
        | .error e => .error e
        | .ok rerFlag =>
          match env.metaLlmAvailable with
          | .error e => .error e
          | .ok llmFlag =>
            .ok { recipes := final_recipes, explanation := explanation,
                  metadata := {
                    retrieval_count := retrieved_recipes.length,
                    reranked_count := reranked_results.length,
                    pipeline_stages :=
                      ["retrieval", "reranking"] ++
                        (if explain then ["generation"] else []),
                    retriever_used := some retrFlag,
                    reranker_used := some rerFlag,
                    llm_used := some llmFlag } }

/-! ## Spec-side definitions, sample data and concrete environments -/

/-- Sample recipe used for witnesses and counterexamples. -/
def rPancake : Recipe :=
  { Title := "Pancakes", Ingredients := "[flour, egg, milk]",
    Instructions := some "Mix everything and fry.",
    Image_Name := "pancakes.jpg", Cleaned_Ingredients := "[flour, egg, milk]" }

/-- Second sample recipe. -/
def rOmelette : Recipe :=
  { Title := "Omelette", Ingredients := "[egg, butter]",
    Instructions := some "Whisk the eggs and cook.",
    Image_Name := "omelette.jpg", Cleaned_Ingredients := "[egg, butter]" }

/-- Modelled from the spec, as claim C9 states it: the candidate text is
title, then the cleaned ingredient list prefixed `"Ingredients:"`, then
the ≤300-word instructions excerpt prefixed `"Preparation:"`, the parts
space-separated. -/
def claimedCandidateText (r : Recipe) : String :=
  r.Title ++ " " ++ ("Ingredients: " ++
      stripListSyntax (pyOrStr r.Cleaned_Ingredients r.Ingredients))
    ++ " " ++ ("Preparation: " ++ truncate300 (r.Instructions.getD ""))

/-- Modelled from the spec with the one change the counterexample forces:
the instructions excerpt is prefixed `"Instructions:"`, not
`"Preparation:"`. -/
def amendedCandidateText (r : Recipe) : String :=
  r.Title ++ " " ++ ("Ingredients: " ++
      stripListSyntax (pyOrStr r.Cleaned_Ingredients r.Ingredients))
    ++ " " ++ ("Instructions: " ++ truncate300 (r.Instructions.getD ""))

/-- A sequence of further `rerank` calls (oracles, query, candidates,
top_k), threading the service state. -/
noncomputable def runRerankCalls (st : RerankerState) :
    List (RerankOracles × String × List Recipe × Nat) → RerankerState
  | [] => st
  | c :: rest =>
    runRerankCalls (RerankerService.rerank st c.1 c.2.1 c.2.2.1 c.2.2.2).1 rest

/-- Environment in which retrieval yields zero candidates: the index is
loaded and returns no neighbours over an empty corpus. -/
def envZero : PipelineEnv :=
  { retrIsLoaded := .ok true,
    findSuitableA := .ok [],
    getTotalCount₁ := .ok 0,
    search := fun _ => .ok [],
    getTotalCount₂ := .ok 0,
    getAllRecipes := fun _ => .ok [],
    findSuitableB := .ok [],
    rerankCall := .ok [(rPancake, 1)],
    generateCall := .ok (some "Reranked explanation."),
    metaRetrIsLoaded := .ok true,
    metaRerankerIsLoaded := .ok false,
    metaLlmAvailable := .ok false }

/-- Environment in which both the primary retrieval path and the lexical
fallback raise: `is_loaded` throws, and the `find_suitable_recipes` call
in the `except` handler throws too. -/
def envRaise : PipelineEnv :=
  { retrIsLoaded := .error .exc,
    findSuitableA := .ok [],
    getTotalCount₁ := .ok 0,
    search := fun _ => .ok [],
    getTotalCount₂ := .ok 0,
    getAllRecipes := fun _ => .ok [],
    findSuitableB := .error .exc,
    rerankCall := .ok [],
    generateCall := .ok none,
    metaRetrIsLoaded := .ok true,
    metaRerankerIsLoaded := .ok true,
    metaLlmAvailable := .ok true }

/-- Environment with a one-recipe corpus: the index returns identifier 0
and the reranker returns that recipe with score 1. -/
def envOne : PipelineEnv :=
  { retrIsLoaded := .ok true,
    findSuitableA := .ok [],
    getTotalCount₁ := .ok 1,
    search := fun _ => .ok [0],
    getTotalCount₂ := .ok 1,
    getAllRecipes := fun _ => .ok [rPancake],
    findSuitableB := .ok [],
    rerankCall := .ok [(rPancake, 1)],
    generateCall := .ok none,
    metaRetrIsLoaded := .ok true,
    metaRerankerIsLoaded := .ok false,
    metaLlmAvailable := .ok false }

/-- Environment with a two-recipe corpus in which the index returns the
FAISS padding identifier `-1`. -/
def envNeg : PipelineEnv :=
  { retrIsLoaded := .ok true,
    findSuitableA := .ok [],
    getTotalCount₁ := .ok 2,
    search := fun _ => .ok [-1],
    getTotalCount₂ := .ok 2,
    getAllRecipes := fun _ => .ok [rPancake, rOmelette],
    findSuitableB := .ok [],
    rerankCall := .ok [],
    generateCall := .ok none,
    metaRetrIsLoaded := .ok true,
    metaRerankerIsLoaded := .ok false,
    metaLlmAvailable := .ok false }

/-- Extract the result of a successful pipeline run (used to name concrete
results in witnesses). -/
def processResultOf (e : Except PyExc PipelineResult) : PipelineResult :=
  match e with
  | .ok r => r
  | .error _ => shortCircuitResult

/-- The concrete result of a pipeline run over the one-recipe corpus with
a single user ingredient. -/
def resOneEgg : PipelineResult :=
  processResultOf (RAGPipeline.process envOne ["egg"] none none 10 false 50)

/-- Modelled from the spec, as claim C5 states it: keep exactly the
identifiers inside the corpus bounds `[0, corpus size)` and resolve each
to the recipe at that position. -/
def claimedResolve (corpus : List Recipe) (ids : List Int) : List Recipe :=
  (ids.filter fun i =>
    decide (0 ≤ i) && decide (i < (corpus.length : Int))).filterMap
    fun i => corpus.get? i.toNat

/-- Modelled from the spec with the changes the counterexample forces:
only identifiers `≥ corpus size` are discarded; every other identifier is
resolved by Python indexing, so a negative identifier `i ≥ -size` yields
the recipe at position `size + i`. -/
def amendedResolve (corpus : List Recipe) (ids : List Int) : List Recipe :=
  (ids.filter fun i => decide (i < (corpus.length : Int))).filterMap
    fun i => pyIndex corpus i

/-! ## Shared helper lemmas and concrete sample data -/

/-- String append is associative (used to normalize concatenations). -/
theorem strAppend_assoc (a b c : String) : (a ++ b) ++ c = a ++ (b ++ c) := by
  apply String.ext
  simp [String.data_append]

/-- `String.intercalate " "` on a three-element list. -/
theorem intercalate_three (a b c : String) :
    String.intercalate " " [a, b, c] = a ++ " " ++ b ++ " " ++ c := rfl

/-- A list is pairwise related by a relation holding between all pairs. -/
theorem pairwise_of_total {α : Type} {R : α → α → Prop}
    (h : ∀ a b, R a b) : ∀ l : List α, l.Pairwise R := by
  intro l
  induction l with
  | nil => exact List.Pairwise.nil
  | cons a t ih => exact List.Pairwise.cons (fun b _ => h a b) ih

/-! ## C9 — reranker candidate text -/

/-- C9 counterexample: on a concrete recipe with title, ingredients and
instructions all present, the code's candidate text differs from the
claimed one — the code prefixes the instructions excerpt with
`"Instructions:"`, while the claim says `"Preparation:"`. -/
theorem c9_counterexample :
    RerankerService.prepare_recipe_text rPancake ≠
      claimedCandidateText rPancake := by decide

/-- C9 (amended): for every recipe whose title, ingredient text and
instructions are present (non-empty), the reranker's candidate text is
the space-separated concatenation of the title, the cleaned ingredient
list (`[`, `]` and quotes stripped) prefixed `"Ingredients:"`, and the
≤300-word instructions excerpt (ellipsis-appended when truncated)
prefixed `"Instructions:"`. -/
theorem c9_candidate_text (r : Recipe) (ht : r.Title ≠ "")
    (hi : pyOrStr r.Cleaned_Ingredients r.Ingredients ≠ "")
    (hins : pyTruthyOpt r.Instructions = true) :
    RerankerService.prepare_recipe_text r = amendedCandidateText r := by
  unfold RerankerService.prepare_recipe_text amendedCandidateText
  simp only [ht, hi, hins, ite_true, if_true, eq_self_iff_true,
    ne_eq, not_false_eq_true, List.singleton_append, List.cons_append,
    List.nil_append]
  exact intercalate_three _ _ _

/-- C9 witness: the amended claim evaluated at a concrete recipe. -/
theorem c9_witness :
    RerankerService.prepare_recipe_text rPancake =
      amendedCandidateText rPancake :=
  c9_candidate_text rPancake (by decide) (by decide) (by decide)

/-! ## C7 — generator returns `None` on every degraded path -/

/-- C7: `LLMService.generate_explanation` never raises (it is total, every
post-guard step being inside its `try`/`except`), and returns `None` —
with the service state untouched on the guard paths — whenever the recipe
list is empty (regardless of the rest of the state), the service is
disabled, no API key is configured, the model load is attempted and
fails, or generation itself throws. -/
theorem c7_generate_explanation_none (st : LLMState) (ora : LLMOracles)
    (recipes : List Recipe) :
    (recipes.isEmpty = true →
      LLMService.generate_explanation st ora recipes = (st, none)) ∧
    (st.enabled = false →
      LLMService.generate_explanation st ora recipes = (st, none)) ∧
    (pyTruthyOpt st.api_key = false →
      LLMService.generate_explanation st ora recipes = (st, none)) ∧
    (st.model_loaded = false → ora.loadOutcome = .error .exc →
      (LLMService.generate_explanation st ora recipes).2 = none) ∧
    (ora.genOutcome = .error .exc →
      (LLMService.generate_explanation st ora recipes).2 = none) := by
  refine ⟨?_, ?_, ?_, ?_, ?_⟩
  · intro h
    unfold LLMService.generate_explanation
    simp [h]
  · intro h
    unfold LLMService.generate_explanation
    cases hL : recipes.isEmpty <;> simp [h, hL]
  · intro h
    unfold LLMService.generate_explanation
    cases hL : recipes.isEmpty <;> cases hE : st.enabled <;> simp [h, hL, hE]
  · intro h hload
    unfold LLMService.generate_explanation LLMService.load_model
    cases hL : recipes.isEmpty <;> cases hE : st.enabled <;>
      cases hK : pyTruthyOpt st.api_key <;> simp [h, hL, hE, hK, hload]
  · intro h
    unfold LLMService.generate_explanation LLMService.load_model
    cases hL : recipes.isEmpty <;> cases hE : st.enabled <;>
      cases hK : pyTruthyOpt st.api_key <;> cases hM : st.model_loaded <;>
      cases hLoad : ora.loadOutcome <;>
      simp [h, hL, hE, hK, hM, hLoad, LLMService.is_available]

/-! ## C8 — load failure permanently disables reranking -/

/-- From a disabled state, `rerank` takes the fallback path immediately:
the state is untouched and the output is the input order truncated to
`top_k` with constant `1.0` scores, for every oracle behaviour. -/
theorem rerank_disabled (st : RerankerState) (ora : RerankOracles)
    (query : String) (recipes : List Recipe) (top_k : Nat)
    (h : st.enabled = false) :
    RerankerService.rerank st ora query recipes top_k =
      (st, rerankFallback recipes top_k) := by
  unfold RerankerService.rerank
  simp [h]

/-- A disabled state stays disabled across any sequence of further calls. -/
theorem runRerankCalls_disabled (calls :
    List (RerankOracles × String × List Recipe × Nat)) :
    ∀ st : RerankerState, st.enabled = false →
      runRerankCalls st calls = st := by
  induction calls with
  | nil => intro st _; rfl
  | cons c rest ih =>
    intro st h
    unfold runRerankCalls
    rw [rerank_disabled st c.1 c.2.1 c.2.2.1 c.2.2.2 h]
    exact ih st h

/-- The state and output of the first `rerank` call on which the lazy
model load is attempted and fails. -/
theorem rerank_load_fail (st : RerankerState) (ora : RerankOracles)
    (query : String) (recipes : List Recipe) (top_k : Nat)
    (hen : st.enabled = true) (hnl : st.model_loaded = false)
    (hne : recipes.isEmpty = false) (hfail : ora.loadOutcome = .error .exc) :
    RerankerService.rerank st ora query recipes top_k =
      ({ st with enabled := false, model_loaded := false },
        rerankFallback recipes top_k) := by
  unfold RerankerService.rerank RerankerService.load_model
  simp [hen, hnl, hne, hfail]

/-- C8: starting from an enabled, never-loaded state, a `rerank` call on
which the model load fails leaves the service with `enabled = false` and
`loaded = false` and returns the fallback; from then on (that state being
absorbing for every oracle behaviour and every further call sequence)
each call returns the fallback without consulting the load oracle; and
`get_model_info` distinguishes the failed state (`enabled = false`,
`loaded = false`) from the never-used one (`enabled = true`,
`loaded = false`). -/
theorem c8_load_failure_permanent (st₀ : RerankerState) (ora : RerankOracles)
    (query : String) (recipes : List Recipe) (top_k : Nat)
    (hen : st₀.enabled = true) (hnl : st₀.model_loaded = false)
    (hne : recipes.isEmpty = false) (hfail : ora.loadOutcome = .error .exc) :
    (RerankerService.rerank st₀ ora query recipes top_k).1.enabled = false ∧
    (RerankerService.rerank st₀ ora query recipes top_k).1.model_loaded
      = false ∧
    (RerankerService.rerank st₀ ora query recipes top_k).2
      = rerankFallback recipes top_k ∧
    (∀ (st : RerankerState) (ora₂ : RerankOracles) (q₂ : String)
        (rs₂ : List Recipe) (k₂ : Nat), st.enabled = false →
      RerankerService.rerank st ora₂ q₂ rs₂ k₂
        = (st, rerankFallback rs₂ k₂)) ∧
    (∀ calls, (runRerankCalls
        (RerankerService.rerank st₀ ora query recipes top_k).1
        calls).enabled = false) ∧
    RerankerService.get_model_info
        (RerankerService.rerank st₀ ora query recipes top_k).1
      = { model_name := st₀.model_name, loaded := false, enabled := false,
          batch_size := st₀.batch_size } ∧
    RerankerService.get_model_info st₀
      = { model_name := st₀.model_name, loaded := false, enabled := true,
          batch_size := st₀.batch_size } ∧
    RerankerService.get_model_info
        (RerankerService.rerank st₀ ora query recipes top_k).1
      ≠ RerankerService.get_model_info st₀ := by
  rw [rerank_load_fail st₀ ora query recipes top_k hen hnl hne hfail]
  refine ⟨rfl, rfl, rfl, ?_, ?_, rfl, ?_, ?_⟩
  · intro st ora₂ q₂ rs₂ k₂ h
    exact rerank_disabled st ora₂ q₂ rs₂ k₂ h
  · intro calls
    rw [runRerankCalls_disabled calls _ rfl]
  · simp [RerankerService.get_model_info, hen, hnl]
  · simp [RerankerService.get_model_info, hen]

/-- C8 witness: the theorem applied to a freshly constructed service, a
load oracle that raises, and a non-empty candidate list. -/
theorem c8_witness :
    (RerankerService.rerank (RerankerService.initial "ce" 32)
        ⟨.error .exc, .ok []⟩ "q" [rPancake] 10).1.enabled = false :=
  (c8_load_failure_permanent (RerankerService.initial "ce" 32)
    ⟨.error .exc, .ok []⟩ "q" [rPancake] 10 rfl rfl rfl rfl).1

/-! ## C2 — rerank output contract -/

/-- The sigmoid-normalized score is non-negative. -/
theorem sigmoid_nonneg (x : ℝ) : 0 ≤ sigmoid x := by
  unfold sigmoid
  positivity

/-- The sigmoid-normalized score is at most one. -/
theorem sigmoid_le_one (x : ℝ) : sigmoid x ≤ 1 := by
  unfold sigmoid
  rw [div_le_one (by positivity)]
  nlinarith [Real.exp_pos (-x)]

/-- The descending-score comparison is transitive. -/
theorem scoreDescB_trans (a b c : Recipe × ℝ) :
    scoreDescB a b → scoreDescB b c → scoreDescB a c := by
  unfold scoreDescB
  simp only [decide_eq_true_eq]
  exact fun hab hbc => le_trans hbc hab

/-- The descending-score comparison is total. -/
theorem scoreDescB_total (a b : Recipe × ℝ) :
    scoreDescB a b || scoreDescB b a := by
  unfold scoreDescB
  rcases le_total a.2 b.2 with h | h <;> simp [h]

/-- Case characterization of `rerank`'s output: it is the fallback, the
empty list (for an empty candidate list with the reranker enabled), or
the truncated descending sort of the zip of the candidates with their
sigmoid-normalized raw scores. -/
theorem rerank_snd_cases (st : RerankerState) (ora : RerankOracles)
    (query : String) (recipes : List Recipe) (top_k : Nat) :
    (RerankerService.rerank st ora query recipes top_k).2
        = rerankFallback recipes top_k ∨
    (recipes = [] ∧ (RerankerService.rerank st ora query recipes top_k).2
        = []) ∨
    (∃ raws, ora.predictOutcome = .ok raws ∧
      (RerankerService.rerank st ora query recipes top_k).2
        = ((recipes.zip (raws.map sigmoid)).mergeSort scoreDescB).take
            top_k) := by
  unfold RerankerService.rerank RerankerService.load_model
  cases hE : st.enabled
  · simp
  · cases hL : recipes.isEmpty
    · cases hM : st.model_loaded
      · cases hLoad : ora.loadOutcome with
        | error e => simp [hE, hL, hM, hLoad]
        | ok u =>
          cases hPred : ora.predictOutcome with
          | error e => simp [hE, hL, hM, hLoad, hPred]
          | ok raws =>
            by_cases hN : raws = []
            · simp [hE, hL, hM, hLoad, hPred, hN]
            · right; right
              exact ⟨raws, rfl, by simp [hE, hL, hM, hLoad, hPred, hN]⟩
      · cases hPred : ora.predictOutcome with
        | error e => simp [hE, hL, hM, hPred]
        | ok raws =>
          by_cases hN : raws = []
          · simp [hE, hL, hM, hPred, hN]
          · right; right
            exact ⟨raws, rfl, by simp [hE, hL, hM, hPred, hN]⟩
    · right; left
      refine ⟨List.isEmpty_iff.mp hL, ?_⟩
      simp [hE, hL]

/-- When the reranker is enabled but scoring fails, the output is the
fallback (for every load-oracle behaviour and candidate list). -/
theorem rerank_predict_fail (st : RerankerState) (ora : RerankOracles)
    (query : String) (recipes : List Recipe) (top_k : Nat)
    (hen : st.enabled = true) (hpred : ora.predictOutcome = .error .exc) :
    (RerankerService.rerank st ora query recipes top_k).2
      = rerankFallback recipes top_k := by
  unfold RerankerService.rerank RerankerService.load_model
  cases hL : recipes.isEmpty
  · cases hM : st.model_loaded
    · cases hLoad : ora.loadOutcome with
      | error e => simp [hen, hL, hM, hLoad]
      | ok u => simp [hen, hL, hM, hLoad, hpred]
    · simp [hen, hL, hM, hpred]
  · simp [hen, hL, rerankFallback, List.isEmpty_iff.mp hL]

/-- C2: for every service state, candidate list and positive `top_k`,
provided the cross-encoder honours its contract of one raw score per
(query, candidate) pair, `rerank`'s output has length
`min top_k |candidates|`, every relevance score lies in `[0, 1]` (each is
either a sigmoid-normalized cross-encoder score or the fallback `1.0`),
the output is sorted descending by score; and on each degraded path —
reranker disabled, model load failure, scoring failure — the output is
the candidates in input order truncated to `top_k` with every score equal
to `1.0`. -/
theorem c2_rerank_contract (st : RerankerState) (ora : RerankOracles)
    (query : String) (recipes : List Recipe) (top_k : Nat)
    (hk : 0 < top_k)
    (hp : ∀ raws, ora.predictOutcome = .ok raws →
      raws.length = recipes.length) :
    ((RerankerService.rerank st ora query recipes top_k).2.length
        = min top_k recipes.length) ∧
    (∀ p ∈ (RerankerService.rerank st ora query recipes top_k).2,
        0 ≤ p.2 ∧ p.2 ≤ 1) ∧
    ((RerankerService.rerank st ora query recipes top_k).2.Pairwise
        fun a b => b.2 ≤ a.2) ∧
    (st.enabled = false →
      (RerankerService.rerank st ora query recipes top_k).2
        = rerankFallback recipes top_k) ∧
    (st.enabled = true → st.model_loaded = false →
      ora.loadOutcome = .error .exc →
      (RerankerService.rerank st ora query recipes top_k).2
        = rerankFallback recipes top_k) ∧
    (st.enabled = true → ora.predictOutcome = .error .exc →
      (RerankerService.rerank st ora query recipes top_k).2
        = rerankFallback recipes top_k) := by
  refine ⟨?_, ?_, ?_, ?_, ?_, ?_⟩
  · rcases rerank_snd_cases st ora query recipes top_k with
      hcase | ⟨hnil, hcase⟩ | ⟨raws, hpred, hcase⟩
    · rw [hcase]
      simp [rerankFallback]
    · rw [hcase, hnil]
      simp
    · rw [hcase]
      have hlen := hp raws hpred
      simp [List.length_take, List.length_zip, hlen]
  · intro p hmem
    rcases rerank_snd_cases st ora query recipes top_k with
      hcase | ⟨hnil, hcase⟩ | ⟨raws, hpred, hcase⟩
    · rw [hcase] at hmem
      unfold rerankFallback at hmem
      rw [List.mem_map] at hmem
      obtain ⟨r, _, rfl⟩ := hmem
      norm_num
    · rw [hcase] at hmem
      simp at hmem
    · rw [hcase] at hmem
      have h1 : p ∈ (recipes.zip (raws.map sigmoid)).mergeSort scoreDescB :=
        List.mem_of_mem_take hmem
      rw [(List.mergeSort_perm _ _).mem_iff] at h1
      have h2 := (List.of_mem_zip h1).2
      rw [List.mem_map] at h2
      obtain ⟨x, _, hx⟩ := h2
      rw [← hx]
      exact ⟨sigmoid_nonneg x, sigmoid_le_one x⟩
  · rcases rerank_snd_cases st ora query recipes top_k with
      hcase | ⟨hnil, hcase⟩ | ⟨raws, hpred, hcase⟩
    · rw [hcase]
      unfold rerankFallback
      rw [List.pairwise_map]
      exact pairwise_of_total (fun a b => le_refl 1) _
    · rw [hcase]
      exact List.Pairwise.nil
    · rw [hcase]
      apply List.Pairwise.sublist (List.take_sublist _ _)
      have hs := @List.sorted_mergeSort (Recipe × ℝ) scoreDescB
        scoreDescB_trans scoreDescB_total (recipes.zip (raws.map sigmoid))
      exact hs.imp fun h => of_decide_eq_true h
  · intro h
    rw [rerank_disabled st ora query recipes top_k h]
  · intro hen hnl hfail
    cases hL : recipes.isEmpty
    · rw [rerank_load_fail st ora query recipes top_k hen hnl hL hfail]
    · have h0 : recipes = [] := List.isEmpty_iff.mp hL
      subst h0
      unfold RerankerService.rerank
      simp [hen, rerankFallback]
  · intro hen hpred
    exact rerank_predict_fail st ora query recipes top_k hen hpred

/-- C2 witness: the length clause of the contract evaluated on a
two-candidate list with `top_k = 1`, a scoring oracle that raises (so the
per-pair score contract holds vacuously), and a fresh service state. -/
theorem c2_witness :
    (RerankerService.rerank (RerankerService.initial "ce" 32)
        ⟨.ok (), .error .exc⟩ "q" [rPancake, rOmelette] 1).2.length
      = min 1 [rPancake, rOmelette].length :=
  (c2_rerank_contract (RerankerService.initial "ce" 32)
    ⟨.ok (), .error .exc⟩ "q" [rPancake, rOmelette] 1
    (by decide) (fun raws h => nomatch h)).1

/-! ## Concrete pipeline environments -/

/-! ## C1 — exception containment of `process` -/

/-- If the lexical fallback of `_retrieve` returns normally, `_retrieve`
returns normally, whatever the primary path did. -/
theorem retrieve_ok_of_fallback (env : PipelineEnv) (top_k : Nat)
    (bs : List RecipeWithMatch) (hB : env.findSuitableB = .ok bs) :
    ∃ l, RAGPipeline.retrieve env top_k = .ok l := by
  unfold RAGPipeline.retrieve
  cases h : retrieveTryBody env top_k with
  | ok r => exact ⟨r, rfl⟩
  | error e =>
    rw [hB]
    exact ⟨_, rfl⟩

/-- C1 (amended): `RAGPipeline.process` returns a `PipelineResult` for
every input and every behaviour of the primary subsystem calls — index
lookup, vector search, corpus reads, reranking, generation may all raise
and their stage fallbacks are substituted — PROVIDED the calls that sit
outside every `try` block return normally: the `find_suitable_recipes`
call in `_retrieve`'s `except` handler and the three availability
accessors (`is_loaded`/`is_loaded`/`is_available`) evaluated while
building the metadata dictionary.  (The counterexample shows the claim
false without that proviso.) -/
theorem c1_process_contained (env : PipelineEnv) (user : List String)
    (prefs : Option DietaryPreferences) (excl : Option (List String))
    (top_k : Nat) (explain : Bool) (retrieval_top_k : Nat)
    (bs : List RecipeWithMatch) (hB : env.findSuitableB = .ok bs)
    (b₁ b₂ b₃ : Bool) (h₁ : env.metaRetrIsLoaded = .ok b₁)
    (h₂ : env.metaRerankerIsLoaded = .ok b₂)
    (h₃ : env.metaLlmAvailable = .ok b₃) :
    ∃ res, RAGPipeline.process env user prefs excl top_k explain
      retrieval_top_k = .ok res := by
  obtain ⟨l, hl⟩ := retrieve_ok_of_fallback env retrieval_top_k bs hB
  unfold RAGPipeline.process
  rw [hl]
  cases hE : l.isEmpty
  · simp only [hE, Bool.false_eq_true, if_false]
    rw [h₁, h₂, h₃]
    exact ⟨_, rfl⟩
  · simp only [hE, if_true]
    exact ⟨_, rfl⟩

/-- C1 counterexample: when the corpus-access call inside `_retrieve`'s
`except` handler itself raises (here: after `is_loaded` raised), the
exception propagates out of `RAGPipeline.process` — no `PipelineResult`
is returned. -/
theorem c1_counterexample :
    RAGPipeline.process envRaise ["egg"] none none 10 true 50
      = .error .exc := rfl

/-- C1 witness: the amended claim at a concrete environment. -/
theorem c1_witness :
    ∃ res, RAGPipeline.process envZero ["egg"] none none 10 true 50
      = .ok res :=
  c1_process_contained envZero ["egg"] none none 10 true 50
    [] rfl true false false rfl rfl rfl

/-! ## C3 — zero-candidate short-circuit -/

/-- C3: if retrieval yields zero candidates, `process` returns the
short-circuit result — empty recipes, no explanation, counts 0, stages
`["retrieval"]` only — and the result does not depend on the reranking or
generation oracles (those stages are not executed). -/
theorem c3_short_circuit (env : PipelineEnv) (user : List String)
    (prefs : Option DietaryPreferences) (excl : Option (List String))
    (top_k : Nat) (explain : Bool) (retrieval_top_k : Nat)
    (h : RAGPipeline.retrieve env retrieval_top_k = .ok []) :
    RAGPipeline.process env user prefs excl top_k explain retrieval_top_k
        = .ok shortCircuitResult ∧
    ∀ (rc : Except PyExc (List (Recipe × ℝ)))
      (gc : Except PyExc (Option String)),
      RAGPipeline.process { env with rerankCall := rc, generateCall := gc }
          user prefs excl top_k explain retrieval_top_k
        = .ok shortCircuitResult := by
  constructor
  · unfold RAGPipeline.process
    rw [h]
    rfl
  · intro rc gc
    unfold RAGPipeline.process
    have h' : RAGPipeline.retrieve
        { env with rerankCall := rc, generateCall := gc } retrieval_top_k
        = .ok [] := h
    rw [h']
    rfl

/-- C3 witness: the short-circuit on a concrete zero-candidate
environment (whose rerank and generate oracles would return non-trivial
values if consulted). -/
theorem c3_witness :
    RAGPipeline.process envZero ["egg"] none none 10 true 50
      = .ok shortCircuitResult :=
  (c3_short_circuit envZero ["egg"] none none 10 true 50 rfl).1

/-! ## C4 — availability flags in the metadata -/

/-- C4: the code contradicts the claim (and its own `RAGMetadata`
response model, which declares `retriever_used`, `reranker_used`,
`llm_used` required): on a request that short-circuits on zero retrieved
candidates, the metadata dictionary carries none of the three
availability keys. -/
theorem c4_short_circuit_missing_flags :
    RAGPipeline.process envZero ["egg"] none none 10 true 50
        = .ok shortCircuitResult ∧
    shortCircuitResult.metadata.retriever_used = none ∧
    shortCircuitResult.metadata.reranker_used = none ∧
    shortCircuitResult.metadata.llm_used = none :=
  ⟨rfl, rfl, rfl, rfl⟩

/-! ## Shape of a successful `process` result -/

/-- In every `PipelineResult` actually returned by `process`, the
metadata's `reranked_count` equals the number of recipes, and every
recipe in the list is the match-annotation of some retrieved recipe
against the user's ingredient list. -/
theorem process_ok_components (env : PipelineEnv) (user : List String)
    (prefs : Option DietaryPreferences) (excl : Option (List String))
    (top_k : Nat) (explain : Bool) (retrieval_top_k : Nat)
    (res : PipelineResult)
    (h : RAGPipeline.process env user prefs excl top_k explain
        retrieval_top_k = .ok res) :
    res.metadata.reranked_count = res.recipes.length ∧
    ∀ ar ∈ res.recipes, ∃ r : Recipe, ar = annotateRecipe user r := by
  unfold RAGPipeline.process at h
  split at h
  · exact Except.noConfusion h
  next retrieved hr =>
    split at h
    · obtain rfl : shortCircuitResult = res := Except.ok.inj h
      constructor
      · rfl
      · intro ar har
        simp [shortCircuitResult] at har
    next hne =>
      split at h <;>
      · split at h
        · exact Except.noConfusion h
        next b₁ h₁ =>
          split at h
          · exact Except.noConfusion h
          next b₂ h₂ =>
            split at h
            · exact Except.noConfusion h
            next b₃ h₃ =>
              obtain rfl := (Except.ok.inj h).symm
              constructor
              · simp
              · intro ar har
                rw [List.mem_map] at har
                obtain ⟨rs, _, rfl⟩ := har
                exact ⟨rs.1, rfl⟩

/-! ## C10 — `reranked_count` equals the number of returned recipes -/

/-- C10: in every `PipelineResult` returned by `process`, the metadata's
`reranked_count` equals the length of the recipes list (one annotated
recipe is built per reranked result; on the zero-candidate short-circuit
both are 0), so the two can never disagree. -/
theorem c10_reranked_count_eq_recipes (env : PipelineEnv)
    (user : List String) (prefs : Option DietaryPreferences)
    (excl : Option (List String)) (top_k : Nat) (explain : Bool)
    (retrieval_top_k : Nat) (res : PipelineResult)
    (h : RAGPipeline.process env user prefs excl top_k explain
        retrieval_top_k = .ok res) :
    res.metadata.reranked_count = res.recipes.length :=
  (process_ok_components env user prefs excl top_k explain retrieval_top_k
    res h).1

/-- C10 witness: the theorem applied to a concrete run whose result is
the short-circuit value. -/
theorem c10_witness :
    shortCircuitResult.metadata.reranked_count
      = shortCircuitResult.recipes.length :=
  c10_reranked_count_eq_recipes envZero ["egg"] none none 10 true 50
    shortCircuitResult rfl

/-! ## C6 — match-annotation invariant -/

/-- C6 counterexample: with the duplicated user ingredient list
`["egg", "egg"]`, the single `RecipeWithMatch` that `process` constructs
has `matchingIngredients = ["egg", "egg"]`, which is not duplicate-free —
so `matchingIngredients` is not a set. -/
theorem c6_counterexample :
    (RAGPipeline.process envOne ["egg", "egg"] none none 10 false
        50).toOption.map (fun res =>
          res.recipes.map RecipeWithMatch.matchingIngredients)
      = some [["egg", "egg"]] ∧
    ¬ (["egg", "egg"] : List String).Nodup := by
  constructor
  · rfl
  · decide

/-- C6 (amended): for every `RecipeWithMatch` constructed by
`RAGPipeline.process`, `matchingCount` equals the length of
`matchingIngredients`, every element of `matchingIngredients` is drawn
from the user's ingredient list and its lowercase form is a substring of
the lowercase of the recipe's raw `Ingredients` text, and the list is
duplicate-free whenever the user's ingredient list is (the code repeats a
user entry once per duplicate occurrence, so it is a set only for
duplicate-free input). -/
theorem c6_annotation_invariant (env : PipelineEnv) (user : List String)
    (prefs : Option DietaryPreferences) (excl : Option (List String))
    (top_k : Nat) (explain : Bool) (retrieval_top_k : Nat)
    (res : PipelineResult)
    (h : RAGPipeline.process env user prefs excl top_k explain
        retrieval_top_k = .ok res) :
    ∀ ar ∈ res.recipes,
      ar.matchingCount = ar.matchingIngredients.length ∧
      (∀ ing ∈ ar.matchingIngredients, ing ∈ user ∧
        (pyLower ing).toList <:+: (pyLower ar.Ingredients).toList) ∧
      (user.Nodup → ar.matchingIngredients.Nodup) := by
  intro ar har
  obtain ⟨r, rfl⟩ := (process_ok_components env user prefs excl top_k
    explain retrieval_top_k res h).2 ar har
  refine ⟨rfl, ?_, ?_⟩
  · intro ing hing
    have hing' : ing ∈ user.filter fun i =>
        pyContains (pyLower r.Ingredients) (pyLower i) := hing
    rw [List.mem_filter] at hing'
    refine ⟨hing'.1, ?_⟩
    exact of_decide_eq_true hing'.2
  · intro hnd
    exact hnd.filter _

/-- C6 witness: the amended invariant evaluated on the annotated recipe
produced by a concrete run. -/
theorem c6_witness :
    (annotateRecipe ["egg"] rPancake).matchingCount
      = (annotateRecipe ["egg"] rPancake).matchingIngredients.length :=
  (c6_annotation_invariant envOne ["egg"] none none 10 false 50 resOneEgg
    rfl (annotateRecipe ["egg"] rPancake) (by decide)).1

/-! ## C5 — resolution of index identifiers in `_retrieve` -/

/-- Python indexing succeeds on every index in `[-len, len)`. -/
theorem pyIndex_isSome {α : Type} (l : List α) (i : Int)
    (hlo : -(l.length : Int) ≤ i) (hhi : i < (l.length : Int)) :
    ∃ r, pyIndex l i = some r := by
  unfold pyIndex
  by_cases h0 : 0 ≤ i
  · rw [if_pos h0]
    have : i.toNat < l.length := by omega
    exact ⟨l.get ⟨i.toNat, this⟩, List.get?_eq_get this⟩
  · rw [if_neg h0]
    have hj : 0 ≤ (l.length : Int) + i := by omega
    simp only [hj, if_true]
    have : ((l.length : Int) + i).toNat < l.length := by omega
    exact ⟨l.get ⟨((l.length : Int) + i).toNat, this⟩, List.get?_eq_get this⟩

/-- When every identifier is at least `-corpus size`, the resolution loop
of `_retrieve` returns normally and computes `amendedResolve`. -/
theorem resolveIndices_eq (corpus : List Recipe) :
    ∀ ids : List Int, (∀ i ∈ ids, -(corpus.length : Int) ≤ i) →
      resolveIndices corpus ids = .ok (amendedResolve corpus ids) := by
  intro ids
  induction ids with
  | nil => intro _; rfl
  | cons i rest ih =>
    intro hge
    unfold resolveIndices
    by_cases hlt : i < (corpus.length : Int)
    · obtain ⟨r, hr⟩ := pyIndex_isSome corpus i
        (hge i (List.mem_cons_self i rest)) hlt
      rw [if_pos hlt, hr,
        ih fun j hj => hge j (List.mem_cons_of_mem i hj)]
      have : amendedResolve corpus (i :: rest)
          = r :: amendedResolve corpus rest := by
        unfold amendedResolve
        simp [List.filter_cons, hlt, List.filterMap_cons, hr]
      rw [this]
    · rw [if_neg hlt, ih fun j hj => hge j (List.mem_cons_of_mem i hj)]
      have : amendedResolve corpus (i :: rest)
          = amendedResolve corpus rest := by
        unfold amendedResolve
        simp [List.filter_cons, hlt]
      rw [this]

/-- C5 counterexample: with corpus `[rPancake, rOmelette]` and the index
returning the single identifier `-1` (FAISS's padding value), the claim
says the identifier is outside `[0, 2)` and must be discarded — but the
code returns the last recipe, resolved through Python negative
indexing. -/
theorem c5_counterexample :
    RAGPipeline.retrieve envNeg 5 = .ok [rOmelette] ∧
    claimedResolve [rPancake, rOmelette] [-1] = [] ∧
    ([rOmelette] : List Recipe) ≠ [] := by
  refine ⟨rfl, rfl, ?_⟩
  decide

/-- C5 (amended): for every positive limit, when the vector index is
loaded and the corpus oracles are consistent (`get_total_count` returns
the corpus length, `get_all_recipes` returns the corpus), the index
returns at most `min limit (corpus size)` identifiers and none below
`-(corpus size)`, `_retrieve` discards every identifier `≥ corpus size`,
resolves every remaining identifier by Python indexing — position `i` for
`0 ≤ i < size`, position `size + i` for negative `i` — and returns a
sequence of length at most `min limit (corpus size)`. -/
theorem c5_retrieve_resolution (env : PipelineEnv) (limit N : Nat)
    (corpus : List Recipe) (ids : List Int)
    (hLoaded : env.retrIsLoaded = .ok true)
    (hN₁ : env.getTotalCount₁ = .ok N)
    (hN₂ : env.getTotalCount₂ = .ok N)
    (hC : env.getAllRecipes N = .ok corpus)
    (hlen : corpus.length = N)
    (hS : env.search (min limit N) = .ok ids)
    (hidslen : ids.length ≤ min limit N)
    (hgeN : ∀ i ∈ ids, -(N : Int) ≤ i) :
    RAGPipeline.retrieve env limit = .ok (amendedResolve corpus ids) ∧
    (amendedResolve corpus ids).length ≤ min limit N := by
  have hres : resolveIndices corpus ids = .ok (amendedResolve corpus ids) :=
    resolveIndices_eq corpus ids (by rw [hlen]; exact hgeN)
  constructor
  · unfold RAGPipeline.retrieve retrieveTryBody
    simp only [hLoaded, hN₁, hS, hN₂, hC, hres, Bool.not_true,
      Bool.false_eq_true, if_false]
  · calc (amendedResolve corpus ids).length
        ≤ (ids.filter fun i =>
            decide (i < (corpus.length : Int))).length :=
          List.length_filterMap_le _ _
      _ ≤ ids.length := List.length_filter_le _ _
      _ ≤ min limit N := hidslen

/-- C5 witness: the amended claim at the concrete two-recipe corpus with
the index returning `[-1]`. -/
theorem c5_witness :
    RAGPipeline.retrieve envNeg 5
      = .ok (amendedResolve [rPancake, rOmelette] [-1]) :=
  (c5_retrieve_resolution envNeg 5 2 [rPancake, rOmelette] [-1]
    rfl rfl rfl rfl rfl rfl (by decide) (by decide)).1

/-- C7 witness: the load-failure clause at a concrete state (enabled,
key configured, model not yet loaded) whose load oracle raises. -/
theorem c7_witness :
    (LLMService.generate_explanation ⟨some "key", true, false, false⟩
        ⟨.error .exc, .ok "Some text."⟩ [rPancake]).2 = none :=
  (c7_generate_explanation_none ⟨some "key", true, false, false⟩
    ⟨.error .exc, .ok "Some text."⟩ [rPancake]).2.2.2.1 rfl rfl

